import Mathlib

/-!
Shallow embedding of the outbound connection subsystem of pipy
(src/outbound.cpp): the `Outbound` base class, `OutboundTCP` and
`OutboundUDP`.  Each C++ member function is translated to a pure Lean
function on an explicit connection record; side effects (socket
operations, timer scheduling, event emission to the upstream input,
metric observations, reference counting, invocations of the
`on_state_changed` callback) are recorded as an explicit list of
`Action`s in program order.  `double` durations are modelled as `ℚ`:
the only operations the code performs on them are comparison with zero
and pass-through, which are exact.
-/

namespace Pipy

/-- Connection lifecycle states, from `Outbound::State`
(idle, resolving, connecting, connected, closed). -/
inductive State where
  | idle
  | resolving
  | connecting
  | connected
  | closed
deriving DecidableEq, Repr

/-- Error kinds of `StreamEnd` used by outbound.cpp. -/
inductive StreamEndError where
  | NO_ERROR
  | CANNOT_RESOLVE
  | CONNECTION_REFUSED
  | CONNECTION_TIMEOUT
  | READ_ERROR
  | WRITE_ERROR
  | CONNECTION_RESET
  | IDLE_TIMEOUT
  | CONNECTION_CANCELED
deriving DecidableEq, Repr

/-- Events exchanged with the upstream pipeline; `Data` payloads are
byte lists. -/
inductive Event where
  | messageStart
  | data (bytes : List Nat)
  | messageEnd
  | streamEnd (err : StreamEndError)
deriving DecidableEq, Repr

/-- Completion status of an asio async operation, as distinguished by
the completion handlers in outbound.cpp: success, operation_aborted,
eof, connection_reset, or any other error. -/
inductive ErrC where
  | ok
  | aborted
  | eof
  | connReset
  | other
deriving DecidableEq, Repr

/-- `Outbound::Options`: the fields the embedded functions consult.
`onStateChanged` records whether the optional callback is configured. -/
structure Options where
  connectTimeout : ℚ
  retryCount : Int
  retryDelay : ℚ
  idleTimeout : ℚ
  maxPacketSize : Nat
  onStateChanged : Bool
deriving DecidableEq, Repr

/-- Observable side effects of the embedded member functions, recorded
in program order. `setState` is any write to `m_state` (via the
`state()` setter or direct); `stateCb` is an invocation of the
configured `on_state_changed` callback. -/
inductive Action where
  | setState (s : State)
  | stateCb (s : State)
  | emit (ev : Event)
  | setRemoteAddr
  | setLocalAddr
  | observeConnTimeLabeled
  | observeConnTime
  | increaseTrafficIn (n : Nat)
  | cancelResolver
  | cancelConnectTimer
  | cancelRetryTimer
  | cancelIdleTimer
  | cancelSocket
  | closeSocket
  | shutdownSocket
  | socketTCPClose
  | scheduleRetryTimer (delay : ℚ)
  | scheduleConnectTimer (t : ℚ)
  | scheduleIdleTimer (t : ℚ)
  | asyncResolve
  | asyncConnect
  | asyncReceive
  | asyncSend (bytes : List Nat)
  | retainRef
  | releaseRef
  | socketStart
deriving DecidableEq, Repr

/-- True exactly on `stateCb` actions. -/
def Action.isStateCb : Action → Bool
  | .stateCb _ => true
  | _ => false

/-- True exactly on `emit` actions. -/
def Action.isEmit : Action → Bool
  | .emit _ => true
  | _ => false

/-- True on the actions `Outbound`'s clients can observe through the
pipeline, the scripting surface or the metrics: state writes, callback
invocations, event emissions, address updates, and metric
observations. -/
def Action.isObservable : Action → Bool
  | .setState _ => true
  | .stateCb _ => true
  | .emit _ => true
  | .setRemoteAddr => true
  | .setLocalAddr => true
  | .observeConnTimeLabeled => true
  | .observeConnTime => true
  | .increaseTrafficIn _ => true
  | _ => false

/-- `Outbound::state(State)`: writes `m_state` and, when the
`on_state_changed` option is set, invokes the callback once. -/
def stateSet (o : Options) (st : State) : List Action :=
  .setState st :: (if o.onStateChanged then [.stateCb st] else [])

/-!
## OutboundTCP
-/

/-- The fields of `Outbound`/`OutboundTCP` that the embedded member
functions read or write.  Address strings are abstracted to
set/not-set flags (their values come from the OS). -/
structure TCPConn where
  state : State
  retries : Int
  remoteAddrSet : Bool
  localAddrSet : Bool
  errorSet : Option StreamEndError
deriving DecidableEq, Repr

/-- `Outbound::error(err)`: record `m_error`, emit `StreamEnd(err)` to
the input, transition to `closed` through the `state()` setter. -/
def tcpError (o : Options) (c : TCPConn) (err : StreamEndError) :
    TCPConn × List Action :=
  ({ c with errorSet := some err, state := .closed },
   .emit (.streamEnd err) :: stateSet o .closed)

/-- `OutboundTCP::resolve()`: post the async resolve, schedule the
connect timer when `connect_timeout > 0`, retain a reference, enter
`resolving` through the setter. -/
def tcpResolve (o : Options) (c : TCPConn) : TCPConn × List Action :=
  ({ c with state := .resolving },
   .asyncResolve ::
     ((if o.connectTimeout > 0 then [.scheduleConnectTimer o.connectTimeout] else []) ++
       .retainRef :: stateSet o .resolving))

/-- `OutboundTCP::start(delay)`: with a positive delay, schedule the
retry timer (which will run `resolve()`) and enter `idle`; otherwise
resolve immediately. -/
def tcpStart (o : Options) (c : TCPConn) (delay : ℚ) : TCPConn × List Action :=
  if delay > 0 then
    ({ c with state := .idle }, .scheduleRetryTimer delay :: stateSet o .idle)
  else
    tcpResolve o c

/-- `OutboundTCP::connect_error(err)`: when `retry_count >= 0` and
`m_retries >= retry_count`, terminate via `error(err)`; otherwise bump
`m_retries`, close the socket, cancel the resolver, enter `idle`, and
call `start(retry_delay)`. -/
def tcpConnectError (o : Options) (c : TCPConn) (err : StreamEndError) :
    TCPConn × List Action :=
  if 0 ≤ o.retryCount ∧ o.retryCount ≤ c.retries then
    tcpError o c err
  else
    let c1 : TCPConn := { c with retries := c.retries + 1, state := .idle }
    let r := tcpStart o c1 o.retryDelay
    (r.1, .closeSocket :: .cancelResolver :: (stateSet o .idle ++ r.2))

/-- `OutboundTCP::close()`: cancel according to the current phase, then
write `m_state = closed` directly (not through the setter). -/
def tcpClose (c : TCPConn) : TCPConn × List Action :=
  let acts : List Action :=
    match c.state with
    | .resolving => [.cancelResolver, .cancelConnectTimer, .cancelSocket]
    | .connecting => [.cancelResolver, .cancelConnectTimer, .cancelSocket]
    | .connected => [.socketTCPClose]
    | _ => []
  ({ c with state := .closed }, acts ++ [.setState .closed])

/-- The continuation `OutboundTCP::connect(endpoint)`: post the async
connect, retain, enter `connecting` through the setter. -/
def tcpConnectInit (o : Options) (c : TCPConn) : TCPConn × List Action :=
  ({ c with state := .connecting },
   .asyncConnect :: .retainRef :: stateSet o .connecting)

/-- The completion handler of `async_resolve` in
`OutboundTCP::resolve()`.  On error with a connect timeout armed, the
timer is cancelled; `operation_aborted` only releases; other errors go
to `connect_error(CANNOT_RESOLVE)`; success is acted on only when the
state is still `resolving`, in which case the remote address is
recorded and the connect phase starts. -/
def tcpResolveCb (o : Options) (c : TCPConn) (ec : ErrC) : TCPConn × List Action :=
  let pre : List Action :=
    if ec ≠ .ok ∧ o.connectTimeout > 0 then [.cancelConnectTimer] else []
  if ec = .aborted then
    (c, pre ++ [.releaseRef])
  else if ec ≠ .ok then
    let r := tcpConnectError o c .CANNOT_RESOLVE
    (r.1, pre ++ r.2 ++ [.releaseRef])
  else if c.state = .resolving then
    let r := tcpConnectInit o { c with remoteAddrSet := true }
    (r.1, pre ++ .setRemoteAddr :: r.2 ++ [.releaseRef])
  else
    (c, pre ++ [.releaseRef])

/-- The completion handler of `async_connect` in
`OutboundTCP::connect(endpoint)`.  The connect timer is cancelled when
armed; `operation_aborted` only releases; errors go to
`connect_error(CONNECTION_REFUSED)`; success is acted on only when the
state is still `connecting`: record the local endpoint, observe the
connect time into the labeled and the root histogram, enter
`connected`, start the socket pump. -/
def tcpConnectCb (o : Options) (c : TCPConn) (ec : ErrC) : TCPConn × List Action :=
  let pre : List Action :=
    if o.connectTimeout > 0 then [.cancelConnectTimer] else []
  if ec = .aborted then
    (c, pre ++ [.releaseRef])
  else if ec ≠ .ok then
    let r := tcpConnectError o c .CONNECTION_REFUSED
    (r.1, pre ++ r.2 ++ [.releaseRef])
  else if c.state = .connecting then
    ({ c with localAddrSet := true, state := .connected },
     pre ++ .setLocalAddr :: .observeConnTimeLabeled :: .observeConnTime ::
       (stateSet o .connected ++ [.socketStart, .releaseRef]))
  else
    (c, pre ++ [.releaseRef])

/-!
## OutboundUDP
-/

/-- The fields of `Outbound`/`OutboundUDP` that the embedded member
functions read or write.  `buffer` is the payload accumulating for the
currently open message, `pendingBuffer` the queue of complete
datagrams awaiting `pump()`. -/
structure UDPConn where
  state : State
  retries : Int
  connecting : Bool
  connected : Bool
  messageStarted : Bool
  ended : Bool
  buffer : List Nat
  pendingBuffer : List (List Nat)
  socketOpen : Bool
  remoteAddrSet : Bool
  localAddrSet : Bool
  errorSet : Option StreamEndError
deriving DecidableEq, Repr

/-- `Outbound::error(err)` as run by `OutboundUDP`. -/
def udpError (o : Options) (c : UDPConn) (err : StreamEndError) :
    UDPConn × List Action :=
  ({ c with errorSet := some err, state := .closed },
   .emit (.streamEnd err) :: stateSet o .closed)

/-- `OutboundUDP::wait()`: re-arm the idle timer when the socket is
open and `idle_timeout > 0`. -/
def udpWait (o : Options) (c : UDPConn) : List Action :=
  if ¬c.socketOpen then []
  else if o.idleTimeout > 0 then [.cancelIdleTimer, .scheduleIdleTimer o.idleTimeout]
  else []

/-- `OutboundUDP::pump()`: a no-op unless the socket is open and the
connection is connected; otherwise submit every pending datagram with
an async send (retaining a reference per send), empty the queue, and
call `wait()`. -/
def udpPump (o : Options) (c : UDPConn) : UDPConn × List Action :=
  if ¬c.socketOpen then (c, [])
  else if ¬c.connected then (c, [])
  else
    ({ c with pendingBuffer := [] },
     (c.pendingBuffer.map fun d => [Action.asyncSend d, Action.retainRef]).flatten ++
       udpWait o c)

/-- `OutboundUDP::receive()`: post an async receive (and retain) when
the socket is open; otherwise nothing. -/
def udpReceiveArm (c : UDPConn) : List Action :=
  if ¬c.socketOpen then [] else [.asyncReceive, .retainRef]

/-- `OutboundUDP::send(evt)`: `MessageStart` (unless `m_ended`) opens a
message and clears the buffer; `Data` appends when a message is open;
`MessageEnd` (when open) moves the buffer onto the pending queue and
pumps; `StreamEnd` (first one) sets `m_ended` and pumps. -/
def udpSend (o : Options) (c : UDPConn) (evt : Event) : UDPConn × List Action :=
  match evt with
  | .messageStart =>
      if ¬c.ended then ({ c with messageStarted := true, buffer := [] }, [])
      else (c, [])
  | .data bytes =>
      if c.messageStarted then ({ c with buffer := c.buffer ++ bytes }, [])
      else (c, [])
  | .messageEnd =>
      if c.messageStarted then
        udpPump o { c with pendingBuffer := c.pendingBuffer ++ [c.buffer],
                           messageStarted := false, buffer := [] }
      else (c, [])
  | .streamEnd _ =>
      if ¬c.ended then
        udpPump o { c with ended := true, messageStarted := false }
      else (c, [])

/-- `OutboundUDP::close()` (the no-argument override): cancel the
outstanding operations of the current phase, reset the message
flags, `m_retries`, and buffers, and shut down and close the socket.
It does not write `m_state`. -/
def udpClose (c : UDPConn) : UDPConn × List Action :=
  let acts : List Action :=
    if c.connecting then
      [.cancelConnectTimer, .cancelRetryTimer, .cancelResolver, .cancelSocket]
    else if c.connected then [.cancelIdleTimer]
    else []
  ({ c with connecting := false, messageStarted := false, ended := false,
            retries := 0, connected := false, buffer := [], pendingBuffer := [],
            socketOpen := false },
   acts ++ [.shutdownSocket, .closeSocket])

/-- `OutboundUDP::close(StreamEnd::Error)`: a no-op unless connected;
otherwise clear buffers and flags, shut down and close the socket when
open, and run the base-class `error(err)` path. -/
def udpCloseErr (o : Options) (c : UDPConn) (err : StreamEndError) :
    UDPConn × List Action :=
  if ¬c.connected then (c, [])
  else
    let sockActs : List Action :=
      if c.socketOpen then [.shutdownSocket, .closeSocket] else []
    let c1 : UDPConn := { c with buffer := [], pendingBuffer := [], ended := false,
                                 retries := 0, connected := false, socketOpen := false }
    let r := udpError o c1 err
    (r.1, sockActs ++ r.2)

/-- `OutboundUDP::resolve()`: post the async resolve, schedule the
connect timer when `connect_timeout > 0`, retain, enter `resolving`
through the setter. -/
def udpResolve (o : Options) (c : UDPConn) : UDPConn × List Action :=
  ({ c with state := .resolving },
   .asyncResolve ::
     ((if o.connectTimeout > 0 then [.scheduleConnectTimer o.connectTimeout] else []) ++
       .retainRef :: stateSet o .resolving))

/-- `OutboundUDP::start(delay)`: with a positive delay, schedule the
retry timer and enter `idle`; otherwise resolve immediately. -/
def udpStart (o : Options) (c : UDPConn) (delay : ℚ) : UDPConn × List Action :=
  if delay > 0 then
    ({ c with state := .idle }, .scheduleRetryTimer delay :: stateSet o .idle)
  else
    udpResolve o c

/-- `OutboundUDP::restart(err)`: when `retry_count >= 0` and
`m_retries >= retry_count`, clear `m_connecting` and terminate via
`error(err)`; otherwise bump `m_retries`, shut down and close the
socket, and call `start(retry_delay)`. -/
def udpRestart (o : Options) (c : UDPConn) (err : StreamEndError) :
    UDPConn × List Action :=
  if 0 ≤ o.retryCount ∧ o.retryCount ≤ c.retries then
    udpError o { c with connecting := false } err
  else
    let r := udpStart o { c with retries := c.retries + 1, socketOpen := false }
      o.retryDelay
    (r.1, .shutdownSocket :: .closeSocket :: r.2)

/-- The completion handler of `async_connect` in
`OutboundUDP::connect(endpoint)`.  The connect timer is cancelled when
armed; `operation_aborted` only releases; errors go to
`restart(CONNECTION_REFUSED)`; on success, when still `m_connecting`,
record the local endpoint, observe the connect time into both
histograms, become connected, enter `connected` through the setter,
arm the receive, and pump; when no longer `m_connecting`, run
`close(CONNECTION_CANCELED)`. -/
def udpConnectCb (o : Options) (c : UDPConn) (ec : ErrC) : UDPConn × List Action :=
  let pre : List Action :=
    if o.connectTimeout > 0 then [.cancelConnectTimer] else []
  if ec = .aborted then
    (c, pre ++ [.releaseRef])
  else if ec ≠ .ok then
    let r := udpRestart o c .CONNECTION_REFUSED
    (r.1, pre ++ r.2 ++ [.releaseRef])
  else if c.connecting then
    let c1 : UDPConn := { c with localAddrSet := true, connected := true,
                                 connecting := false, state := .connected }
    let r := udpPump o c1
    (r.1, pre ++ .setLocalAddr :: .observeConnTimeLabeled :: .observeConnTime ::
      (stateSet o .connected ++ udpReceiveArm c1 ++ r.2 ++ [.releaseRef]))
  else
    let r := udpCloseErr o c .CONNECTION_CANCELED
    (r.1, pre ++ r.2 ++ [.releaseRef])

/-- The completion handler of `async_receive` in
`OutboundUDP::receive()`.  `buf` is the receive buffer as filled (its
size is `max_packet_size`), `n` the completed byte count.
`operation_aborted` only releases.  Otherwise, when `n > 0`, the
buffer is trimmed to its first `n` bytes (only when the socket is
still open), the inbound counters grow by the trimmed size, and a
`MessageStart`/`Data`/`MessageEnd` triple is emitted.  Then an error
closes the connection — `eof` with `NO_ERROR`, `connection_reset` with
`CONNECTION_RESET`, anything else with `READ_ERROR` — while success
re-arms the receive and the idle timer. -/
def udpReceiveCb (o : Options) (c : UDPConn) (ec : ErrC) (buf : List Nat) (n : Nat) :
    UDPConn × List Action :=
  if ec = .aborted then (c, [.releaseRef])
  else
    let trimmed := if c.socketOpen then buf.take n else buf
    let emitActs : List Action :=
      if n > 0 then
        [.increaseTrafficIn trimmed.length, .increaseTrafficIn trimmed.length,
         .emit .messageStart, .emit (.data trimmed), .emit .messageEnd]
      else []
    match ec with
    | .ok => (c, emitActs ++ udpReceiveArm c ++ udpWait o c ++ [.releaseRef])
    | .eof =>
        let r := udpCloseErr o c .NO_ERROR
        (r.1, emitActs ++ r.2 ++ [.releaseRef])
    | .connReset =>
        let r := udpCloseErr o c .CONNECTION_RESET
        (r.1, emitActs ++ r.2 ++ [.releaseRef])
    | _ =>
        let r := udpCloseErr o c .READ_ERROR
        (r.1, emitActs ++ r.2 ++ [.releaseRef])

/-!
## Connect-time histogram buckets (`Outbound::init_metrics`)
-/

/-- The bucket loop of `Outbound::init_metrics`: starting from
`limit = 1.5`, take `floor(limit)` and multiply `limit` by `1.5`, `k`
times.  The C++ code computes in `double`; every value taken by
`limit` is `(3/2)^i` with `i ≤ 20`, whose numerator `3^i ≤ 3^20 < 2^53`
makes each multiplication exact in `double`, so `ℚ` models it
faithfully. -/
def bucketLoop : Nat → ℚ → List ℚ
  | 0, _ => []
  | k + 1, limit => ((limit.floor : ℤ) : ℚ) :: bucketLoop k (limit * (3 / 2))

/-- The 21 buckets of `pipy_outbound_conn_time`: twenty finite bounds
from the loop, then `+∞` (modelled as `none`). -/
def connTimeBuckets : List (Option ℚ) :=
  (bucketLoop 20 (3 / 2)).map some ++ [none]

/-!
## Concrete fixtures used by witnesses and counterexamples
-/

/-- Options with two retries allowed and no timers. -/
def oRetry : Options :=
  { connectTimeout := 0, retryCount := 2, retryDelay := 0, idleTimeout := 0,
    maxPacketSize := 4, onStateChanged := true }

/-- Options with no retry allowed. -/
def oNoRetry : Options :=
  { connectTimeout := 0, retryCount := 0, retryDelay := 0, idleTimeout := 0,
    maxPacketSize := 4, onStateChanged := true }

/-- Options with unlimited retries and a positive retry delay. -/
def oDelay : Options :=
  { connectTimeout := 1, retryCount := -1, retryDelay := 2, idleTimeout := 3,
    maxPacketSize := 4, onStateChanged := true }

/-- A fresh UDP connection record in the connecting phase. -/
def cuConnecting : UDPConn :=
  { state := .connecting, retries := 0, connecting := true, connected := false,
    messageStarted := false, ended := false, buffer := [], pendingBuffer := [],
    socketOpen := true, remoteAddrSet := true, localAddrSet := false,
    errorSet := none }

/-- A connected UDP connection record with an open message and one
pending datagram. -/
def cuConnected : UDPConn :=
  { state := .connected, retries := 0, connecting := false, connected := true,
    messageStarted := true, ended := false, buffer := [1, 2], pendingBuffer := [[9]],
    socketOpen := true, remoteAddrSet := true, localAddrSet := true,
    errorSet := none }

/-- A connected TCP connection record. -/
def ctConnected : TCPConn :=
  { state := .connected, retries := 0, remoteAddrSet := true,
    localAddrSet := true, errorSet := none }

/-- A TCP connection record still in the connecting phase. -/
def ctConnecting : TCPConn :=
  { state := .connecting, retries := 0, remoteAddrSet := true,
    localAddrSet := false, errorSet := none }

/-!
## Claims
-/

/-- C5: `OutboundUDP::send` framing.  A `MessageStart` while not ended
opens a message and clears the accumulation buffer (discarding any
partial payload); after `ended` it is ignored.  `Data` appends to the
buffer exactly when a message is open.  `MessageEnd` with an open
message moves the buffer contents onto the pending send queue as one
datagram, closes the message, and runs the pump.  A first `StreamEnd`
sets `ended`, closes any open message, and pumps. -/
theorem C5_udp_send_framing (o : Options) (c : UDPConn) (bytes : List Nat)
    (e : StreamEndError) :
    (c.ended = false →
      udpSend o c .messageStart = ({ c with messageStarted := true, buffer := [] }, [])) ∧
    (c.ended = true → udpSend o c .messageStart = (c, [])) ∧
    (c.messageStarted = true →
      udpSend o c (.data bytes) = ({ c with buffer := c.buffer ++ bytes }, [])) ∧
    (c.messageStarted = false → udpSend o c (.data bytes) = (c, [])) ∧
    (c.messageStarted = true →
      udpSend o c .messageEnd =
        udpPump o { c with pendingBuffer := c.pendingBuffer ++ [c.buffer],
                           messageStarted := false, buffer := [] }) ∧
    (c.messageStarted = false → udpSend o c .messageEnd = (c, [])) ∧
    (c.ended = false →
      udpSend o c (.streamEnd e) =
        udpPump o { c with ended := true, messageStarted := false }) ∧
    (c.ended = false → (udpSend o c (.streamEnd e)).1.ended = true) := by
  refine ⟨fun h => ?_, fun h => ?_, fun h => ?_, fun h => ?_, fun h => ?_,
    fun h => ?_, fun h => ?_, fun h => ?_⟩ <;>
    simp [udpSend, h, udpPump, udpWait]
  · by_cases hs : c.socketOpen <;> by_cases hc : c.connected <;> simp [hs, hc]

theorem C5_witness :
    udpSend oRetry cuConnected (.data [3]) =
      ({ cuConnected with buffer := [1, 2, 3] }, []) :=
  (C5_udp_send_framing oRetry cuConnected [3] .NO_ERROR).2.2.1 (by decide)

/-- C2 counterexample: `OutboundUDP::close()` does not write `m_state`;
on a connection in the `connecting` state it leaves the state
`connecting`, not `closed`. -/
theorem C2_counterexample :
    (udpClose cuConnecting).1.state = .connecting ∧
      (udpClose cuConnecting).1.state ≠ .closed := by
  constructor <;> decide

/-- C2 amended: `close()` is idempotent on both transports, and
`OutboundTCP::close()` leaves the connection in state `closed`; but
`OutboundUDP::close()` never modifies the state field, so the
connection stays in whatever state it had. -/
theorem C2_close_idempotent (c : TCPConn) (cu : UDPConn) :
    (tcpClose c).1.state = .closed ∧
    (tcpClose (tcpClose c).1).1 = (tcpClose c).1 ∧
    (udpClose (udpClose cu).1).1 = (udpClose cu).1 ∧
    (udpClose cu).1.state = cu.state := by
  refine ⟨rfl, ?_, ?_, rfl⟩
  · simp [tcpClose]
  · simp [udpClose]

/-- C3 counterexample: with the `on_state_changed` callback configured,
`OutboundTCP::close()` on a connected connection performs the
transition `connected → closed` yet invokes the callback zero
times (it writes `m_state` directly, bypassing the setter). -/
theorem C3_counterexample :
    ctConnected.state ≠ .closed ∧
    (tcpClose ctConnected).1.state = .closed ∧
    (tcpClose ctConnected).2.filter Action.isStateCb = [] := by
  refine ⟨by decide, by decide, by decide⟩

/-- C3 amended: every transition performed through the `state()` setter
invokes the configured callback exactly once; but the transition to
`closed` caused by `OutboundTCP::close()` bypasses the setter and
invokes no callback, and `OutboundUDP::close()` does not change the
state at all (and invokes no callback either). -/
theorem C3_state_cb_once (o : Options) (st : State) (c : TCPConn) (cu : UDPConn) :
    (o.onStateChanged = true →
      (stateSet o st).filter Action.isStateCb = [.stateCb st]) ∧
    (o.onStateChanged = false → (stateSet o st).filter Action.isStateCb = []) ∧
    (tcpClose c).2.filter Action.isStateCb = [] ∧
    (udpClose cu).1.state = cu.state ∧
    (udpClose cu).2.filter Action.isStateCb = [] := by
  refine ⟨fun h => ?_, fun h => ?_, ?_, rfl, ?_⟩
  · simp [stateSet, h, Action.isStateCb]
  · simp [stateSet, h, Action.isStateCb]
  · rcases c with ⟨st', r, ra, la, er⟩
    cases st' <;> simp [tcpClose, Action.isStateCb]
  · simp [udpClose, Action.isStateCb]
    split_ifs <;> simp [Action.isStateCb]

theorem C3_witness :
    (stateSet oRetry .connected).filter Action.isStateCb = [.stateCb .connected] :=
  (C3_state_cb_once oRetry .connected ctConnected cuConnected).1 (by decide)

/-- C1 counterexample: a UDP connection error before `connected` that
does not exhaust `retry_count` (here `retry_count = 2`, `retries = 0`)
takes the retry branch of `OutboundUDP::restart` — the retries counter
is incremented and the socket closed — but, contrary to the claim, no
resolver cancellation is performed. -/
theorem C1_counterexample :
    (udpRestart oRetry cuConnecting .CANNOT_RESOLVE).1.retries = 1 ∧
    Action.closeSocket ∈ (udpRestart oRetry cuConnecting .CANNOT_RESOLVE).2 ∧
    Action.cancelResolver ∉ (udpRestart oRetry cuConnecting .CANNOT_RESOLVE).2 := by
  refine ⟨by decide, by decide, by decide⟩

/-- C1 amended: on a connection error before `connected`, both
transports emit exactly one terminal `StreamEnd` carrying the error
and transition to `closed` when `retry_count ≥ 0 ∧ retries ≥
retry_count`; otherwise both increment `retries`, close the nascent
socket and call `start(retry_delay)` — but only TCP additionally
cancels the resolver; UDP shuts the socket down and closes it without
touching the resolver. -/
theorem C1_retry_policy (o : Options) (c : TCPConn) (cu : UDPConn)
    (err : StreamEndError) :
    (0 ≤ o.retryCount ∧ o.retryCount ≤ c.retries →
      (tcpConnectError o c err).2.filter Action.isEmit = [.emit (.streamEnd err)] ∧
      (tcpConnectError o c err).1.state = .closed ∧
      (tcpConnectError o c err).1.errorSet = some err) ∧
    (0 ≤ o.retryCount ∧ o.retryCount ≤ cu.retries →
      (udpRestart o cu err).2.filter Action.isEmit = [.emit (.streamEnd err)] ∧
      (udpRestart o cu err).1.state = .closed ∧
      (udpRestart o cu err).1.errorSet = some err) ∧
    (¬(0 ≤ o.retryCount ∧ o.retryCount ≤ c.retries) →
      (tcpConnectError o c err).1.retries = c.retries + 1 ∧
      Action.closeSocket ∈ (tcpConnectError o c err).2 ∧
      Action.cancelResolver ∈ (tcpConnectError o c err).2 ∧
      ((0 : ℚ) < o.retryDelay →
        Action.scheduleRetryTimer o.retryDelay ∈ (tcpConnectError o c err).2) ∧
      (¬(0 : ℚ) < o.retryDelay →
        Action.asyncResolve ∈ (tcpConnectError o c err).2)) ∧
    (¬(0 ≤ o.retryCount ∧ o.retryCount ≤ cu.retries) →
      (udpRestart o cu err).1.retries = cu.retries + 1 ∧
      Action.closeSocket ∈ (udpRestart o cu err).2 ∧
      Action.shutdownSocket ∈ (udpRestart o cu err).2 ∧
      Action.cancelResolver ∉ (udpRestart o cu err).2 ∧
      ((0 : ℚ) < o.retryDelay →
        Action.scheduleRetryTimer o.retryDelay ∈ (udpRestart o cu err).2) ∧
      (¬(0 : ℚ) < o.retryDelay →
        Action.asyncResolve ∈ (udpRestart o cu err).2)) := by
  by_cases hb : o.onStateChanged <;>
    by_cases hd : (0 : ℚ) < o.retryDelay <;>
    by_cases ht : (0 : ℚ) < o.connectTimeout <;>
    refine ⟨fun h => ?_, fun h => ?_, fun h => ?_, fun h => ?_⟩ <;>
    simp [tcpConnectError, udpRestart, tcpError, udpError, tcpStart, udpStart,
      tcpResolve, udpResolve, stateSet, Action.isEmit, h, hb, hd, ht]

theorem C1_witness :
    (tcpConnectError oNoRetry ctConnecting .CONNECTION_REFUSED).2.filter
        Action.isEmit = [.emit (.streamEnd .CONNECTION_REFUSED)] ∧
    (tcpConnectError oNoRetry ctConnecting .CONNECTION_REFUSED).1.state = .closed ∧
    (tcpConnectError oNoRetry ctConnecting .CONNECTION_REFUSED).1.errorSet =
      some .CONNECTION_REFUSED :=
  (C1_retry_policy oNoRetry ctConnecting cuConnecting .CONNECTION_REFUSED).1
    (by decide)

/-- C4 counterexample: a retrying UDP connection error with
`retry_delay = 0` (here `retry_count = 2`, `retries = 0`) never passes
through the `idle` state: `OutboundUDP::restart` calls `start(0)`,
which resolves immediately, so the only state written on the way to
the next attempt is `resolving`. -/
theorem C4_counterexample :
    (udpRestart oRetry cuConnecting .CONNECTION_REFUSED).1.retries = 1 ∧
    Action.setState .idle ∉ (udpRestart oRetry cuConnecting .CONNECTION_REFUSED).2 ∧
    Action.setState .resolving ∈
      (udpRestart oRetry cuConnecting .CONNECTION_REFUSED).2 := by
  refine ⟨by decide, by decide, by decide⟩

/-- C4 amended: a TCP retry always passes through `idle`
(`OutboundTCP::connect_error` sets `idle` before calling `start`); a
UDP retry passes through `idle` exactly when `retry_delay > 0` — with
a zero delay the state goes straight to `resolving` with no `idle` in
between. -/
theorem C4_retry_idle (o : Options) (c : TCPConn) (cu : UDPConn)
    (err : StreamEndError) :
    (¬(0 ≤ o.retryCount ∧ o.retryCount ≤ c.retries) →
      Action.setState .idle ∈ (tcpConnectError o c err).2) ∧
    (¬(0 ≤ o.retryCount ∧ o.retryCount ≤ cu.retries) →
      ((0 : ℚ) < o.retryDelay →
        Action.setState .idle ∈ (udpRestart o cu err).2) ∧
      (¬(0 : ℚ) < o.retryDelay →
        Action.setState .idle ∉ (udpRestart o cu err).2 ∧
        Action.setState .resolving ∈ (udpRestart o cu err).2)) := by
  by_cases hb : o.onStateChanged <;>
    by_cases hd : (0 : ℚ) < o.retryDelay <;>
    by_cases ht : (0 : ℚ) < o.connectTimeout <;>
    refine ⟨fun h => ?_, fun h => ?_⟩ <;>
    simp [tcpConnectError, udpRestart, udpStart, tcpStart, tcpResolve, udpResolve,
      stateSet, h, hb, hd, ht]

theorem C4_witness :
    Action.setState .idle ∈
      (tcpConnectError oRetry ctConnecting .CONNECTION_REFUSED).2 :=
  (C4_retry_idle oRetry ctConnecting cuConnecting .CONNECTION_REFUSED).1 (by decide)

/-- C6 counterexample: a receive that completes successfully with
`n = 0` bytes (an empty datagram) emits nothing at all — no
`MessageStart`, no `Data`, no `MessageEnd` — and only re-arms the
receive, contrary to the claim that every successfully completed
receive of `n` bytes produces the triple. -/
theorem C6_counterexample :
    (udpReceiveCb oRetry cuConnected .ok [7, 7, 7, 7] 0).2.filter Action.isEmit = [] ∧
    Action.asyncReceive ∈ (udpReceiveCb oRetry cuConnected .ok [7, 7, 7, 7] 0).2 := by
  refine ⟨by decide, by decide⟩

/-- C6 amended: for every receive that completes successfully with
`n > 0` bytes while the socket is still open, the buffer is trimmed to
exactly its first `n` bytes, both inbound byte counters grow by `n`,
exactly one `MessageStart`, one `Data` carrying those `n` bytes and
one `MessageEnd` are emitted, and the receive and idle timer are
re-armed; a successful receive of `0` bytes emits nothing and only
re-arms. -/
theorem C6_receive_success (o : Options) (cu : UDPConn) (buf : List Nat) (n : Nat)
    (hopen : cu.socketOpen = true) (hn : 0 < n) (hlen : n ≤ buf.length) :
    udpReceiveCb o cu .ok buf n =
      (cu, [.increaseTrafficIn n, .increaseTrafficIn n, .emit .messageStart,
            .emit (.data (buf.take n)), .emit .messageEnd] ++
        [.asyncReceive, .retainRef] ++ udpWait o cu ++ [.releaseRef]) ∧
    (buf.take n).length = n := by
  have hmin : min n buf.length = n := min_eq_left hlen
  refine ⟨?_, by simp [hmin]⟩
  simp [udpReceiveCb, udpReceiveArm, hopen, hn, hmin]

theorem C6_witness :
    udpReceiveCb oDelay cuConnected .ok [5, 6, 7, 8] 2 =
      (cuConnected,
       [.increaseTrafficIn 2, .increaseTrafficIn 2, .emit .messageStart,
        .emit (.data [5, 6]), .emit .messageEnd] ++
        [.asyncReceive, .retainRef] ++ udpWait oDelay cuConnected ++ [.releaseRef]) :=
  (C6_receive_success oDelay cuConnected [5, 6, 7, 8] 2 (by decide) (by decide)
    (by decide)).1

/-- C7: a UDP receive completing with an error other than
operation-aborted (on a connected connection) closes the connection,
recording and emitting the error kind mapped exactly as the claim
states: `eof ↦ NO_ERROR`, `connection_reset ↦ CONNECTION_RESET`, and
every other error `↦ READ_ERROR`. -/
theorem C7_receive_error_mapping (o : Options) (cu : UDPConn) (buf : List Nat)
    (n : Nat) (ec : ErrC) (hok : ec ≠ .ok) (hab : ec ≠ .aborted)
    (hconn : cu.connected = true) :
    (udpReceiveCb o cu ec buf n).1.state = .closed ∧
    (udpReceiveCb o cu ec buf n).1.errorSet =
      some (if ec = .eof then .NO_ERROR
            else if ec = .connReset then .CONNECTION_RESET else .READ_ERROR) ∧
    Action.emit (.streamEnd
        (if ec = .eof then .NO_ERROR
         else if ec = .connReset then .CONNECTION_RESET else .READ_ERROR)) ∈
      (udpReceiveCb o cu ec buf n).2 := by
  by_cases hn : 0 < n <;> by_cases hs : cu.socketOpen <;>
    by_cases hb : o.onStateChanged <;>
    cases ec <;>
    simp_all [udpReceiveCb, udpCloseErr, udpError, stateSet]

theorem C7_witness :
    (udpReceiveCb oRetry cuConnected .connReset [] 0).1.state = .closed ∧
    (udpReceiveCb oRetry cuConnected .connReset [] 0).1.errorSet =
      some .CONNECTION_RESET ∧
    Action.emit (.streamEnd .CONNECTION_RESET) ∈
      (udpReceiveCb oRetry cuConnected .connReset [] 0).2 := by
  have h := C7_receive_error_mapping oRetry cuConnected [] 0 .connReset
    (by decide) (by decide) (by decide)
  simpa using h

/-- The loop produces `k` entries. -/
theorem bucketLoop_length (k : Nat) (q : ℚ) : (bucketLoop k q).length = k := by
  induction k generalizing q with
  | zero => rfl
  | succ k ih => simp [bucketLoop, ih]

/-- Entry `i` of the loop started at `q` is the floor of `q * (3/2)^i`. -/
theorem bucketLoop_get (k : Nat) (q : ℚ) (i : Nat) (h : i < k) :
    (bucketLoop k q)[i]? = some (((q * (3 / 2) ^ i).floor : ℤ) : ℚ) := by
  induction k generalizing q i with
  | zero => omega
  | succ k ih =>
    cases i with
    | zero => simp [bucketLoop]
    | succ i =>
      have hmul : q * (3 / 2) * (3 / 2 : ℚ) ^ i = q * (3 / 2) ^ (i + 1) := by ring
      simp [bucketLoop, ih (q * (3 / 2)) i (by omega), hmul]

/-- C8: the `pipy_outbound_conn_time` histogram has exactly 21
buckets; bucket `i` for `i = 0..19` is the floor of `(3/2)^(i+1)`
over exact arithmetic (every intermediate `double` in the source loop
is exactly representable, so `ℚ` models the loop faithfully;
`Rat.floor` agrees with the mathematical floor), the final bucket is
`+∞`; and the successful-connect completion observes the connect time
exactly once into the root histogram and once into its labeled
instance. -/
theorem C8_conn_time_histogram :
    connTimeBuckets.length = 21 ∧
    (∀ i : Fin 20, connTimeBuckets[(i : Nat)]? =
      some (some ((Rat.floor (((3 : ℚ) / 2) ^ ((i : Nat) + 1)) : ℤ) : ℚ))) ∧
    (∀ q : ℚ, Rat.floor q = ⌊q⌋) ∧
    connTimeBuckets[(20 : Nat)]? = some none ∧
    (∀ (o : Options) (c : TCPConn), c.state = .connecting →
      (tcpConnectCb o c .ok).2.count .observeConnTime = 1 ∧
      (tcpConnectCb o c .ok).2.count .observeConnTimeLabeled = 1) := by
  refine ⟨by simp [connTimeBuckets, bucketLoop_length], fun i => ?_,
    fun q => (Rat.floor_def' q).trans Rat.floor_def.symm, ?_, ?_⟩
  · have hi : (i : Nat) < 20 := i.isLt
    have hmul : (3 / 2 : ℚ) * (3 / 2) ^ (i : Nat) = (3 / 2) ^ ((i : Nat) + 1) := by
      ring
    have hlt : (i : Nat) < ((bucketLoop 20 (3 / 2)).map some).length := by
      simp [bucketLoop_length, hi]
    simp [connTimeBuckets, List.getElem?_append_left hlt, List.getElem?_map,
      bucketLoop_get 20 (3 / 2) i hi, hmul]
  · have h20 : ((bucketLoop 20 (3 / 2 : ℚ)).map some).length = 20 := by
      simp [bucketLoop_length]
    have := List.getElem?_concat_length ((bucketLoop 20 (3 / 2 : ℚ)).map some)
      (none : Option ℚ)
    rw [h20] at this
    simpa [connTimeBuckets] using this
  · intro o c h
    by_cases ht : (0 : ℚ) < o.connectTimeout <;>
      by_cases hb : o.onStateChanged <;>
      simp [tcpConnectCb, stateSet, h, ht, hb, List.count_cons, List.count_append]

theorem C8_witness :
    (tcpConnectCb oRetry ctConnecting .ok).2.count .observeConnTime = 1 ∧
    (tcpConnectCb oRetry ctConnecting .ok).2.count .observeConnTimeLabeled = 1 :=
  C8_conn_time_histogram.2.2.2.2 oRetry ctConnecting (by decide)

/-- C9: `OutboundUDP::pump` removes nothing from the pending queue
unless the socket is open and the connection is connected; when both
hold it empties the queue, submitting an async send for every pending
datagram; and the successful connect completion (while still
`m_connecting`, socket open) submits every datagram queued before the
connect completed. -/
theorem C9_pending_queue (o : Options) (cu : UDPConn) :
    (cu.socketOpen = false → udpPump o cu = (cu, [])) ∧
    (cu.connected = false → udpPump o cu = (cu, [])) ∧
    (cu.socketOpen = true → cu.connected = true →
      (udpPump o cu).1.pendingBuffer = [] ∧
      ∀ d ∈ cu.pendingBuffer, Action.asyncSend d ∈ (udpPump o cu).2) ∧
    (cu.connecting = true → cu.socketOpen = true →
      ∀ d ∈ cu.pendingBuffer, Action.asyncSend d ∈ (udpConnectCb o cu .ok).2) := by
  refine ⟨fun hs => ?_, fun hc => ?_, fun hs hc => ⟨?_, fun d hd => ?_⟩,
    fun hg hs d hd => ?_⟩
  · simp [udpPump, hs]
  · by_cases hs : cu.socketOpen <;> simp [udpPump, hs, hc]
  · simp [udpPump, hs, hc]
  · simp [udpPump, hs, hc]
    exact Or.inl hd
  · by_cases ht : (0 : ℚ) < o.connectTimeout <;>
      by_cases hb : o.onStateChanged <;>
      simp [udpConnectCb, udpPump, udpReceiveArm, udpWait, stateSet, hg, hs, ht,
        hb] <;>
      exact hd

theorem C9_witness :
    (udpPump oRetry cuConnected).1.pendingBuffer = [] ∧
    Action.asyncSend [9] ∈ (udpPump oRetry cuConnected).2 := by
  have h := (C9_pending_queue oRetry cuConnected).2.2.1 (by decide) (by decide)
  exact ⟨h.1, h.2 [9] (by decide)⟩

/-- C10: a TCP resolve completion that succeeds when the state is no
longer `resolving` leaves the connection record unchanged and performs
nothing but the reference release; a connect completion that succeeds
when the state is no longer `connecting` likewise leaves the record
unchanged and performs no observable action (only the timer-cancel
housekeeping and the release). -/
theorem C10_stale_completions (o : Options) (c : TCPConn) :
    (c.state ≠ .resolving → tcpResolveCb o c .ok = (c, [.releaseRef])) ∧
    (c.state ≠ .connecting →
      (tcpConnectCb o c .ok).1 = c ∧
      (tcpConnectCb o c .ok).2.filter Action.isObservable = []) := by
  refine ⟨fun h => ?_, fun h => ?_⟩
  · simp [tcpResolveCb, h]
  · by_cases ht : (0 : ℚ) < o.connectTimeout <;>
      simp [tcpConnectCb, h, ht, Action.isObservable]

theorem C10_witness :
    tcpResolveCb oRetry ctConnected .ok = (ctConnected, [.releaseRef]) ∧
    ((tcpConnectCb oRetry ctConnected .ok).1 = ctConnected ∧
      (tcpConnectCb oRetry ctConnected .ok).2.filter Action.isObservable = []) :=
  ⟨(C10_stale_completions oRetry ctConnected).1 (by decide),
   (C10_stale_completions oRetry ctConnected).2 (by decide)⟩

end Pipy
